import Mathlib

/-!
Shallow embedding of `osgtest/library/osgunittest.py`, the extension of the
standard Python unittest framework used by osg-test.  The embedding covers the
exception taxonomy, the `_Outcome` tracker and its `testPartExecutor`, the
`OSGTestResult` collector, `OSGTestCase.run`, `OSGTestSuite.run`, and the
report formatting of `OSGTextTestResult`.

Modelling conventions:
- A test case is identified by a natural number (`TestId`); the only thing the
  code under study does with a test object is carry it around and render a
  description of it.
- A raised Python exception is a constructor of `Exc`.  The taxonomy classes
  `OkSkipException`, `ExcludedException`, `BadSkipException` and
  `TimeoutException` (all subclasses of `AssertionError`), unittest's
  `SkipTest`, `KeyboardInterrupt`, the private `_ShouldStop`, and the two
  remaining shapes that matter to the control flow: an `AssertionError` that is
  not one of the taxonomy classes (`failure`) and any other exception
  (`error`).  Each carries `str(value)` as its message.
- Stateful methods become state-passing functions; a Python method that can
  raise returns `Except PyExc _`.
- Calls made on the result object by `OSGTestCase.run` are recorded in order as
  an `RCall` trace, so that "method m was (not) invoked" is expressible.
-/

/-- A test case, identified by a number. -/
abbrev TestId : Type := Nat

/-- The exceptions distinguished by the control flow of `osgunittest.py`.
`okSkip`, `excluded`, `badSkip`, `timeout` are the four taxonomy classes;
`skipTest` is unittest's `SkipTest`; `failure` is an `AssertionError` that is
not a taxonomy class; `error` is any other exception. -/
inductive Exc : Type
  | okSkip (msg : String)
  | excluded (msg : String)
  | badSkip (msg : String)
  | timeout (msg : String)
  | skipTest (msg : String)
  | shouldStop
  | keyboardInterrupt
  | failure (msg : String)
  | error (msg : String)
  deriving DecidableEq, Repr

/-- Models `str(value)` on an exception value: its message. -/
def excStr : Exc → String
  | .okSkip m | .excluded m | .badSkip m | .timeout m
  | .skipTest m | .failure m | .error m => m
  | .shouldStop => ""
  | .keyboardInterrupt => ""

/-- Models `exctype in (OkSkipException, ExcludedException, BadSkipException,
TimeoutException)` from `OSGTestResult.osg_exc_info_to_string`. -/
def isTaxonomyExcType : Exc → Bool
  | .okSkip _ | .excluded _ | .badSkip _ | .timeout _ => true
  | _ => false

/-- Models `issubclass(exc_info[0], self.failureException)` from
`OSGTestCase._feedErrorsToResult`: `failureException` is `AssertionError`, and
the four taxonomy classes subclass `AssertionError`. -/
def isFailureException : Exc → Bool
  | .okSkip _ | .excluded _ | .badSkip _ | .timeout _ | .failure _ => true
  | _ => false

/-- Exceptions that escape the modelled fragment: the two `ValueError` /
`AttributeError` failure modes of unpacking a non-triple in
`osg_exc_info_to_string`, and re-raised test exceptions (`KeyboardInterrupt`). -/
inductive PyExc : Type
  | valueError
  | attributeError
  | raisedExc (e : Exc)
  deriving DecidableEq, Repr

/-- Models `unittest.TestResult._exc_info_to_string` applied to a genuine
`sys.exc_info()` triple: it renders the traceback and exception as text.  The
exact text never matters to the claims; we render it deterministically. -/
def _exc_info_to_string (e : Exc) (test : TestId) : String :=
  "Traceback (most recent call last): test " ++ toString test ++ ": " ++ excStr e

/-- The argument actually passed for the `err` parameter of the `add*` result
methods: either a genuine exc_info triple (as the docstrings require) or, as
`OSGTestCase.run` does, the plain string stored by `testPartExecutor`. -/
inductive ErrArg : Type
  | excInfo (e : Exc)
  | strArg (s : String)
  deriving DecidableEq, Repr

/-- Models `OSGTestResult.osg_exc_info_to_string`.  On a genuine triple it returns
`str(value)` for the four taxonomy classes and delegates to
`_exc_info_to_string` otherwise.  On a string argument the statement
`exctype, value, _ = err` iterates over the characters: it raises `ValueError`
unless the string has exactly three characters, and with three characters the
character bound to `exctype` is not a taxonomy class, so the call falls through
to unittest's `_exc_info_to_string`, which fails on the non-traceback third
component (`AttributeError`). -/
def osg_exc_info_to_string (err : ErrArg) (test : TestId) : Except PyExc String :=
  match err with
  | .excInfo e =>
      if isTaxonomyExcType e then .ok (excStr e)
      else .ok (_exc_info_to_string e test)
  | .strArg s =>
      if s.length = 3 then .error .attributeError else .error .valueError

/-- Models `OSGTestResult` (and the state of its parent `unittest.TestResult`):
category lists hold `(testcase, formatted message)` pairs. -/
structure OSGTestResult : Type where
  testsRun : Nat
  failures : List (TestId × String)
  errors : List (TestId × String)
  okSkips : List (TestId × String)
  badSkips : List (TestId × String)
  excludes : List (TestId × String)
  timeouts : List (TestId × String)
  skipped : List (TestId × String)
  expectedFailures : List (TestId × String)
  unexpectedSuccesses : List TestId
  shouldStop : Bool
  deriving DecidableEq, Repr

/-- A fresh `OSGTestResult()`. -/
def OSGTestResult.empty : OSGTestResult :=
  { testsRun := 0, failures := [], errors := [], okSkips := [], badSkips := []
  , excludes := [], timeouts := [], skipped := [], expectedFailures := []
  , unexpectedSuccesses := [], shouldStop := false }

/-- Models `unittest.TestResult.startTest`: increments `testsRun`. -/
def OSGTestResult.startTest (r : OSGTestResult) : OSGTestResult :=
  { r with testsRun := r.testsRun + 1 }

/-- Models `unittest.TestResult.stopTest`: no effect on the modelled state. -/
def OSGTestResult.stopTest (r : OSGTestResult) : OSGTestResult := r

/-- Models `OSGTestResult.addOkSkip`: appends `(test, osg_exc_info_to_string(err, test))`
to `okSkips`; the formatting call runs (and can raise) before the append. -/
def OSGTestResult.addOkSkip (r : OSGTestResult) (test : TestId) (err : ErrArg) :
    Except PyExc OSGTestResult :=
  match osg_exc_info_to_string err test with
  | .ok s => .ok { r with okSkips := r.okSkips ++ [(test, s)] }
  | .error e => .error e

/-- Models `OSGTestResult.addExclude`. -/
def OSGTestResult.addExclude (r : OSGTestResult) (test : TestId) (err : ErrArg) :
    Except PyExc OSGTestResult :=
  match osg_exc_info_to_string err test with
  | .ok s => .ok { r with excludes := r.excludes ++ [(test, s)] }
  | .error e => .error e

/-- Models `OSGTestResult.addBadSkip`. -/
def OSGTestResult.addBadSkip (r : OSGTestResult) (test : TestId) (err : ErrArg) :
    Except PyExc OSGTestResult :=
  match osg_exc_info_to_string err test with
  | .ok s => .ok { r with badSkips := r.badSkips ++ [(test, s)] }
  | .error e => .error e

/-- Models `OSGTestResult.addTimeout`. -/
def OSGTestResult.addTimeout (r : OSGTestResult) (test : TestId) (err : ErrArg) :
    Except PyExc OSGTestResult :=
  match osg_exc_info_to_string err test with
  | .ok s => .ok { r with timeouts := r.timeouts ++ [(test, s)] }
  | .error e => .error e

/-- Models `unittest.TestResult.addFailure`: appends the formatted exc_info to
`failures`. -/
def OSGTestResult.addFailure (r : OSGTestResult) (test : TestId) (e : Exc) :
    OSGTestResult :=
  { r with failures := r.failures ++ [(test, _exc_info_to_string e test)] }

/-- Models `unittest.TestResult.addError`. -/
def OSGTestResult.addError (r : OSGTestResult) (test : TestId) (e : Exc) :
    OSGTestResult :=
  { r with errors := r.errors ++ [(test, _exc_info_to_string e test)] }

/-- Models `unittest.TestResult.addSuccess`: a no-op on the state. -/
def OSGTestResult.addSuccess (r : OSGTestResult) (_test : TestId) : OSGTestResult := r

/-- Models `unittest.TestResult.addExpectedFailure`. -/
def OSGTestResult.addExpectedFailure (r : OSGTestResult) (test : TestId) (e : Exc) :
    OSGTestResult :=
  { r with expectedFailures := r.expectedFailures ++ [(test, _exc_info_to_string e test)] }

/-- Models `unittest.TestResult.addUnexpectedSuccess`. -/
def OSGTestResult.addUnexpectedSuccess (r : OSGTestResult) (test : TestId) :
    OSGTestResult :=
  { r with unexpectedSuccesses := r.unexpectedSuccesses ++ [test] }

/-- Models `OSGTestResult.wasSuccessful`, translated literally from the chained
comparison `len(self.failures) == len(self.errors) == len(self.badSkips) ==
len(self.timeouts) == 0`. -/
def OSGTestResult.wasSuccessful (r : OSGTestResult) : Bool :=
  (r.failures.length == r.errors.length) && (r.errors.length == r.badSkips.length)
    && (r.badSkips.length == r.timeouts.length) && (r.timeouts.length == 0)

/-- Models `OSGTestResult.wasPerfect`. -/
def OSGTestResult.wasPerfect (r : OSGTestResult) : Bool :=
  r.wasSuccessful && (r.okSkips.length == 0)

/-- The state of `_Outcome`: per-category collections of
`(test_case, str(e))`, the raw exc_info list `errors`, and the flags. -/
structure Outcome : Type where
  expecting_failure : Bool
  result_supports_subtests : Bool
  success : Bool
  okSkipped : List (TestId × String)
  badSkipped : List (TestId × String)
  excluded : List (TestId × String)
  timedOut : List (TestId × String)
  expectedFailure : Option Exc
  errors : List (TestId × Option Exc)
  deriving DecidableEq, Repr

/-- Models `_Outcome.__init__(result)`; `result_supports_subtests` is
`hasattr(result, "addSubTest")`, which is true for every `unittest.TestResult`
and hence for every result this code runs against. -/
def initOutcome (supportsSubtests : Bool) : Outcome :=
  { expecting_failure := false, result_supports_subtests := supportsSubtests
  , success := true, okSkipped := [], badSkipped := [], excluded := []
  , timedOut := [], expectedFailure := none, errors := [] }

/-- Models `_Outcome.testPartExecutor(test_case)`: the behaviour of the `with` block is
summed up by the exception the guarded part raises (`none` if it raises
nothing).  Returns the outcome state after the handler and `finally` clause,
together with the exception the executor re-raises (only `KeyboardInterrupt`
is re-raised). -/
def testPartExecutor (o : Outcome) (test_case : TestId) (part : Option Exc) :
    Outcome × Option Exc :=
  let old_success := o.success
  let o1 : Outcome := { o with success := true }
  let step : Outcome × Option Exc :=
    match part with
    | none =>
        (if o1.result_supports_subtests && o1.success then
          { o1 with errors := o1.errors ++ [(test_case, none)] }
        else o1, none)
    | some .keyboardInterrupt => (o1, some .keyboardInterrupt)
    | some (.skipTest m) =>
        ({ o1 with success := false, okSkipped := o1.okSkipped ++ [(test_case, m)] }, none)
    | some (.okSkip m) =>
        ({ o1 with success := false, okSkipped := o1.okSkipped ++ [(test_case, m)] }, none)
    | some (.badSkip m) =>
        ({ o1 with success := false, badSkipped := o1.badSkipped ++ [(test_case, m)] }, none)
    | some (.excluded m) =>
        ({ o1 with excluded := o1.excluded ++ [(test_case, m)] }, none)
    | some (.timeout m) =>
        ({ o1 with success := false, timedOut := o1.timedOut ++ [(test_case, m)] }, none)
    | some .shouldStop => (o1, none)
    | some e =>
        if o1.expecting_failure then
          ({ o1 with expectedFailure := some e }, none)
        else
          ({ o1 with success := false, errors := o1.errors ++ [(test_case, some e)] }, none)
  ({ step.1 with success := step.1.success && old_success }, step.2)

/-- The behaviour of one test case's parts: the exception each of `setUp`, the
test method, and `tearDown` raises when executed (`none` = returns normally),
plus whether the test is decorated as expecting failure.  (Class- or
method-level `@skip` decoration and registered cleanups are not used by the
osg-test suites and are not modelled; `run` is modelled for a caller-supplied
result object, as `OSGTestSuite.run` always supplies one.) -/
structure Script : Type where
  setUpExc : Option Exc
  bodyExc : Option Exc
  tearDownExc : Option Exc
  expecting_failure : Bool
  deriving DecidableEq, Repr

/-- Tag for a test part that was entered during `OSGTestCase.run`. -/
inductive PartTag : Type
  | setUpPart
  | bodyPart
  | tearDownPart
  deriving DecidableEq, Repr

/-- One invocation of a method of the result object by `OSGTestCase.run`. -/
inductive RCall : Type
  | startTest (test : TestId)
  | stopTest (test : TestId)
  | addOkSkip (test : TestId) (err : ErrArg)
  | addBadSkip (test : TestId) (err : ErrArg)
  | addExclude (test : TestId) (err : ErrArg)
  | addTimeout (test : TestId) (err : ErrArg)
  | addFailure (test : TestId) (e : Exc)
  | addError (test : TestId) (e : Exc)
  | addSuccess (test : TestId)
  | addExpectedFailure (test : TestId) (e : Exc)
  | addUnexpectedSuccess (test : TestId)
  deriving DecidableEq, Repr

/-- Models `OSGTestCase._feedErrorsToResult` (no subtests occur): entries with a
`None` exc_info are skipped; an `AssertionError` subclass goes to `addFailure`,
anything else to `addError`. -/
def feedErrorCalls : List (TestId × Option Exc) → List RCall
  | [] => []
  | (_, none) :: rest => feedErrorCalls rest
  | (t, some e) :: rest =>
      (if isFailureException e then RCall.addFailure t e else RCall.addError t e)
        :: feedErrorCalls rest

/-- Executes one result-method invocation against the result state. -/
def doCall (r : OSGTestResult) : RCall → Except PyExc OSGTestResult
  | .startTest _ => .ok r.startTest
  | .stopTest _ => .ok r.stopTest
  | .addOkSkip t err => r.addOkSkip t err
  | .addBadSkip t err => r.addBadSkip t err
  | .addExclude t err => r.addExclude t err
  | .addTimeout t err => r.addTimeout t err
  | .addFailure t e => .ok (r.addFailure t e)
  | .addError t e => .ok (r.addError t e)
  | .addSuccess t => .ok (r.addSuccess t)
  | .addExpectedFailure t e => .ok (r.addExpectedFailure t e)
  | .addUnexpectedSuccess t => .ok (r.addUnexpectedSuccess t)

/-- Executes a sequence of result-method invocations in order, stopping at the
first one that raises.  Returns the invocations actually made (the raising one
included), the result state reached (a raising call leaves it untouched), and
the exception propagated, if any. -/
def doCalls (r : OSGTestResult) :
    List RCall → List RCall × OSGTestResult × Option PyExc
  | [] => ([], r, none)
  | c :: cs =>
      match doCall r c with
      | .ok r2 =>
          let rest := doCalls r2 cs
          (c :: rest.1, rest.2.1, rest.2.2)
      | .error e => ([c], r, some e)

/-- Everything observable about one `OSGTestCase.run` call: the parts entered
in order, the result-object methods invoked in order, the final result state,
and the exception `run` propagates to its caller, if any. -/
structure RunOut : Type where
  executed : List PartTag
  calls : List RCall
  result : OSGTestResult
  raised : Option PyExc
  deriving DecidableEq, Repr

/-- The calls `OSGTestCase.run` makes on the result after the parts have run:
the four category loops (guarded by `isinstance(result, OSGTestResult)`),
`_feedErrorsToResult`, and the success/expected-failure block. -/
def runReportCalls (isOSG : Bool) (test : TestId) (o : Outcome)
    (expecting_failure : Bool) : List RCall :=
  (if isOSG then
      o.okSkipped.map (fun p => RCall.addOkSkip p.1 (.strArg p.2))
        ++ o.badSkipped.map (fun p => RCall.addBadSkip p.1 (.strArg p.2))
        ++ o.excluded.map (fun p => RCall.addExclude p.1 (.strArg p.2))
        ++ o.timedOut.map (fun p => RCall.addTimeout p.1 (.strArg p.2))
    else [])
    ++ feedErrorCalls o.errors
    ++ (if o.success then
          (if expecting_failure then
            match o.expectedFailure with
            | some e => [RCall.addExpectedFailure test e]
            | none => [RCall.addUnexpectedSuccess test]
          else [RCall.addSuccess test])
        else [])

/-- Models `OSGTestCase.run(result)` for an undecorated test whose parts behave as
`sc` says, against a caller-supplied result.  `isOSG` is
`isinstance(result, OSGTestResult)`.  Mirrors the source: `startTest`; `setUp`
under `testPartExecutor`; if the outcome is still successful, the test method
(with `expecting_failure` set) and then `tearDown`, each under
`testPartExecutor`; `doCleanups` (no cleanups registered); the category loops,
`_feedErrorsToResult` and the success block; and in the `finally` clause
`stopTest`.  A `KeyboardInterrupt` re-raised by `testPartExecutor` skips
straight to the `finally` clause and propagates. -/
def OSGTestCase.run (isOSG : Bool) (test : TestId) (sc : Script)
    (r0 : OSGTestResult) : RunOut :=
  let r1 := r0.startTest
  let o0 := initOutcome true
  match testPartExecutor o0 test sc.setUpExc with
  | (_, some e) =>
      { executed := [.setUpPart], calls := [.startTest test, .stopTest test]
      , result := r1.stopTest, raised := some (.raisedExc e) }
  | (o1, none) =>
      let afterParts : Outcome × List PartTag × Option Exc :=
        if o1.success then
          let o1a := { o1 with expecting_failure := sc.expecting_failure }
          match testPartExecutor o1a test sc.bodyExc with
          | (o2, some e) => (o2, [.bodyPart], some e)
          | (o2, none) =>
              let o2a := { o2 with expecting_failure := false }
              match testPartExecutor o2a test sc.tearDownExc with
              | (o3, pe) => (o3, [.bodyPart, .tearDownPart], pe)
        else (o1, [], none)
      match afterParts with
      | (_, parts, some e) =>
          { executed := .setUpPart :: parts
          , calls := [.startTest test, .stopTest test]
          , result := r1.stopTest, raised := some (.raisedExc e) }
      | (o3, parts, none) =>
          let plan := runReportCalls isOSG test o3 sc.expecting_failure
          let fin := doCalls r1 plan
          { executed := .setUpPart :: parts
          , calls := RCall.startTest test :: fin.1 ++ [RCall.stopTest test]
          , result := fin.2.1.stopTest
          , raised := fin.2.2 }

/-- Models `OSGTestSuite.run(result)`: each contained test is a state transformer on
the shared result, tagged with an identifier so the invocation order is
observable.  Returns the final result state and the identifiers of the tests
invoked, in order. -/
def OSGTestSuite.run :
    List (Nat × (OSGTestResult → OSGTestResult)) → OSGTestResult →
      OSGTestResult × List Nat
  | [], r => (r, [])
  | t :: ts, r =>
      if r.shouldStop then (r, [])
      else
        let r2 := t.2 r
        let rest := OSGTestSuite.run ts r2
        (rest.1, t.1 :: rest.2)

/-- Applying a list of suite entries to a result state in order. -/
def applySeq (ts : List (Nat × (OSGTestResult → OSGTestResult)))
    (r : OSGTestResult) : OSGTestResult :=
  ts.foldl (fun s t => t.2 s) r

/-- Models `TextTestResult.separator1`. -/
def separator1 : String := String.mk (List.replicate 70 '=')

/-- Models `TextTestResult.separator2`. -/
def separator2 : String := String.mk (List.replicate 70 '-')

/-- Models `TextTestResult.getDescription`: a one-line description of the test. -/
def getDescription (test : TestId) : String := "test " ++ toString test

/-- Models `stream.writeln`: the stream is the list of lines written so far. -/
def writeln (stream : List String) (s : String) : List String := stream ++ [s]

/-- Models `OSGTextTestResult.printErrorList(flavour, errors)`. -/
def printErrorList (flavour : String) :
    List String → List (TestId × String) → List String
  | stream, [] => stream
  | stream, (t, err) :: rest =>
      printErrorList flavour
        (writeln (writeln (writeln (writeln stream separator1)
          (flavour ++ ": " ++ getDescription t)) separator2) err) rest

/-- The body of the `for` loop in `OSGTextTestResult.printSkipList`. -/
def printSkipLines (stream : List String) (skips : List (TestId × String)) :
    List String :=
  skips.foldl (fun st p => writeln st (getDescription p.1 ++ " " ++ p.2)) stream

/-- Models `OSGTextTestResult.printSkipList(flavour, skips)`: prints nothing when
`skips` is empty. -/
def printSkipList (flavour : String) (stream : List String)
    (skips : List (TestId × String)) : List String :=
  if skips.isEmpty then stream
  else
    writeln
      (printSkipLines
        (writeln (writeln (writeln stream separator1) (flavour ++ ":")) separator2)
        skips)
      ""

/-- Models `OSGTextTestResult.printErrors`. -/
def printErrors (dots showAll : Bool) (stream : List String)
    (r : OSGTestResult) : List String :=
  let st := if dots || showAll then writeln stream "" else stream
  let st := printErrorList "ERROR" st r.errors
  let st := printErrorList "FAIL" st r.failures
  let st := printErrorList "TIMEOUT" st r.timeouts
  let st := printSkipList "BAD SKIPS" st r.badSkips
  let st := printSkipList "OK SKIPS" st r.okSkips
  printSkipList "EXCLUDED" st r.excludes

/-- The six possible landing places for an exception handled by
`testPartExecutor`.  Each disjunct fixes one collection as having grown by
exactly the one new entry and every other collection as unchanged, so the
frame equalities make the disjuncts mutually exclusive: the disjunction says
the exception was captured in exactly one place. -/
def capturedExactlyOne (o o2 : Outcome) (test : TestId) (e : Exc) : Prop :=
  (o2.okSkipped = o.okSkipped ++ [(test, excStr e)] ∧ o2.badSkipped = o.badSkipped
    ∧ o2.excluded = o.excluded ∧ o2.timedOut = o.timedOut ∧ o2.errors = o.errors
    ∧ o2.expectedFailure = o.expectedFailure)
  ∨ (o2.badSkipped = o.badSkipped ++ [(test, excStr e)] ∧ o2.okSkipped = o.okSkipped
    ∧ o2.excluded = o.excluded ∧ o2.timedOut = o.timedOut ∧ o2.errors = o.errors
    ∧ o2.expectedFailure = o.expectedFailure)
  ∨ (o2.excluded = o.excluded ++ [(test, excStr e)] ∧ o2.okSkipped = o.okSkipped
    ∧ o2.badSkipped = o.badSkipped ∧ o2.timedOut = o.timedOut ∧ o2.errors = o.errors
    ∧ o2.expectedFailure = o.expectedFailure)
  ∨ (o2.timedOut = o.timedOut ++ [(test, excStr e)] ∧ o2.okSkipped = o.okSkipped
    ∧ o2.badSkipped = o.badSkipped ∧ o2.excluded = o.excluded ∧ o2.errors = o.errors
    ∧ o2.expectedFailure = o.expectedFailure)
  ∨ (o2.errors = o.errors ++ [(test, some e)] ∧ o2.okSkipped = o.okSkipped
    ∧ o2.badSkipped = o.badSkipped ∧ o2.excluded = o.excluded
    ∧ o2.timedOut = o.timedOut ∧ o2.expectedFailure = o.expectedFailure)
  ∨ (o2.expectedFailure = some e ∧ o2.okSkipped = o.okSkipped
    ∧ o2.badSkipped = o.badSkipped ∧ o2.excluded = o.excluded
    ∧ o2.timedOut = o.timedOut ∧ o2.errors = o.errors)

/-- Result-method invocations that would record a pass, a failure or an
error. -/
def isPassFailErrorCall : RCall → Bool
  | .addSuccess _ => true
  | .addFailure _ _ => true
  | .addError _ _ => true
  | _ => false

/-- setUp behaviours after which `OSGTestCase.run` still enters the test body:
`outcome.success` stays true when setUp raises nothing, and also when it
raises `ExcludedException` or `_ShouldStop`, since neither handler in
`testPartExecutor` clears `success`. -/
def setUpLetsBodyRun : Option Exc → Bool
  | none => true
  | some (.excluded _) => true
  | some .shouldStop => true
  | _ => false

/-- Helper: `printErrorList` writes to the end of the stream. -/
theorem printErrorList_hom (flavour : String) (es : List (TestId × String)) :
    ∀ stream, printErrorList flavour stream es
      = stream ++ printErrorList flavour [] es := by
  induction es with
  | nil => intro stream; simp [printErrorList]
  | cons p rest ih =>
      intro stream
      obtain ⟨t, err⟩ := p
      rw [printErrorList, printErrorList, ih, ih (writeln _ _)]
      simp [writeln]

/-- Helper: `printSkipLines` writes to the end of the stream. -/
theorem printSkipLines_hom (skips : List (TestId × String)) :
    ∀ stream, printSkipLines stream skips
      = stream ++ printSkipLines [] skips := by
  induction skips with
  | nil => intro stream; simp [printSkipLines]
  | cons p rest ih =>
      intro stream
      simp only [printSkipLines, List.foldl_cons] at *
      rw [ih, ih (writeln _ _)]
      simp [writeln]

/-- Helper: `printSkipList` writes to the end of the stream. -/
theorem printSkipList_hom (flavour : String) (skips : List (TestId × String))
    (stream : List String) :
    printSkipList flavour stream skips
      = stream ++ printSkipList flavour [] skips := by
  unfold printSkipList
  by_cases h : skips.isEmpty
  · simp [h]
  · simp only [h, if_false]
    rw [printSkipLines_hom skips (writeln (writeln (writeln stream _) _) _),
      printSkipLines_hom skips (writeln (writeln (writeln [] _) _) _)]
    simp [writeln]

/-- C5: `wasSuccessful()` is true exactly when `failures`, `errors`,
`badSkips` and `timeouts` are all empty (`okSkips` and `excludes` play no
role), and `wasPerfect()` is true exactly when `wasSuccessful()` holds and
`okSkips` is also empty, so recorded excludes never prevent a perfect
result. -/
theorem osg_wasSuccessful_wasPerfect_spec (r : OSGTestResult) :
    (r.wasSuccessful = true ↔
      (r.failures = [] ∧ r.errors = [] ∧ r.badSkips = [] ∧ r.timeouts = []))
    ∧ (r.wasPerfect = true ↔ (r.wasSuccessful = true ∧ r.okSkips = []))
    ∧ (∀ ex, OSGTestResult.wasPerfect { r with excludes := ex } = r.wasPerfect) := by
  refine ⟨?_, ?_, fun ex => rfl⟩
  · unfold OSGTestResult.wasSuccessful
    simp only [Bool.and_eq_true, beq_iff_eq, ← List.length_eq_zero]
    omega
  · unfold OSGTestResult.wasPerfect
    simp [Bool.and_eq_true, List.length_eq_zero]

/-- C8: with a genuine exc_info argument (as the docstrings specify), each of
`addOkSkip`, `addBadSkip`, `addExclude`, `addTimeout` appends exactly one
`(test, formatted message)` pair to its own category list and leaves every
other field of the result — the other three category lists, `failures` and
`errors` included — unchanged. -/
theorem osg_add_category_frame (r : OSGTestResult) (test : TestId) (e : Exc) :
    ∃ s1 s2 s3 s4,
      r.addOkSkip test (.excInfo e)
          = .ok { r with okSkips := r.okSkips ++ [(test, s1)] }
      ∧ r.addBadSkip test (.excInfo e)
          = .ok { r with badSkips := r.badSkips ++ [(test, s2)] }
      ∧ r.addExclude test (.excInfo e)
          = .ok { r with excludes := r.excludes ++ [(test, s3)] }
      ∧ r.addTimeout test (.excInfo e)
          = .ok { r with timeouts := r.timeouts ++ [(test, s4)] } := by
  by_cases h : isTaxonomyExcType e = true
  · exact ⟨excStr e, excStr e, excStr e, excStr e,
      by simp [OSGTestResult.addOkSkip, osg_exc_info_to_string, h],
      by simp [OSGTestResult.addBadSkip, osg_exc_info_to_string, h],
      by simp [OSGTestResult.addExclude, osg_exc_info_to_string, h],
      by simp [OSGTestResult.addTimeout, osg_exc_info_to_string, h]⟩
  · exact ⟨_exc_info_to_string e test, _exc_info_to_string e test,
      _exc_info_to_string e test, _exc_info_to_string e test,
      by simp [OSGTestResult.addOkSkip, osg_exc_info_to_string, h],
      by simp [OSGTestResult.addBadSkip, osg_exc_info_to_string, h],
      by simp [OSGTestResult.addExclude, osg_exc_info_to_string, h],
      by simp [OSGTestResult.addTimeout, osg_exc_info_to_string, h]⟩

/-- C9: `printErrors` always emits its sections in the fixed order ERROR,
FAIL, TIMEOUT, BAD SKIPS, OK SKIPS, EXCLUDED (each section's lines appended
after the previous one), and a skip section with an empty category list
writes nothing at all. -/
theorem osg_printErrors_spec (dots showAll : Bool) (stream : List String)
    (r : OSGTestResult) :
    printErrors dots showAll stream r =
      (if dots || showAll then stream ++ [""] else stream)
        ++ printErrorList "ERROR" [] r.errors
        ++ printErrorList "FAIL" [] r.failures
        ++ printErrorList "TIMEOUT" [] r.timeouts
        ++ printSkipList "BAD SKIPS" [] r.badSkips
        ++ printSkipList "OK SKIPS" [] r.okSkips
        ++ printSkipList "EXCLUDED" [] r.excludes
    ∧ (∀ flavour st, printSkipList flavour st [] = st) := by
  constructor
  · unfold printErrors
    by_cases h : (dots || showAll) = true
    · simp only [h, if_true]
      conv_lhs => rw [printErrorList_hom "ERROR" r.errors,
        printErrorList_hom "FAIL" r.failures,
        printErrorList_hom "TIMEOUT" r.timeouts,
        printSkipList_hom "BAD SKIPS" r.badSkips,
        printSkipList_hom "OK SKIPS" r.okSkips,
        printSkipList_hom "EXCLUDED" r.excludes]
      simp [writeln]
    · simp only [h, if_false]
      conv_lhs => rw [printErrorList_hom "ERROR" r.errors,
        printErrorList_hom "FAIL" r.failures,
        printErrorList_hom "TIMEOUT" r.timeouts,
        printSkipList_hom "BAD SKIPS" r.badSkips,
        printSkipList_hom "OK SKIPS" r.okSkips,
        printSkipList_hom "EXCLUDED" r.excludes]
      simp [writeln]
  · intro flavour st
    simp [printSkipList, List.isEmpty]

/-- C6: `OSGTestSuite.run` invokes the contained tests in list order, one at a
time, threading the one shared result through every invocation and returning
it; it stops before invoking the next test as soon as the result's
`shouldStop` flag is set. -/
theorem osg_suite_run_spec (ts : List (Nat × (OSGTestResult → OSGTestResult)))
    (r : OSGTestResult) :
    ∃ n, n ≤ ts.length
      ∧ (OSGTestSuite.run ts r).2 = (ts.take n).map Prod.fst
      ∧ (OSGTestSuite.run ts r).1 = applySeq (ts.take n) r
      ∧ (∀ i, i < n → (applySeq (ts.take i) r).shouldStop = false)
      ∧ (n < ts.length → (applySeq (ts.take n) r).shouldStop = true) := by
  induction ts generalizing r with
  | nil => exact ⟨0, by simp [OSGTestSuite.run, applySeq]⟩
  | cons t ts ih =>
      by_cases h : r.shouldStop = true
      · refine ⟨0, by simp, ?_, ?_, ?_, ?_⟩ <;>
          simp [OSGTestSuite.run, h, applySeq]
      · obtain ⟨n, hn, h2, h1, hstop, hlast⟩ := ih (t.2 r)
        refine ⟨n + 1, by simpa using hn, ?_, ?_, ?_, ?_⟩
        · simp [OSGTestSuite.run, h, h2]
        · simp [OSGTestSuite.run, h, h1, applySeq]
        · intro i hi
          cases i with
          | zero =>
              simpa [applySeq] using Bool.not_eq_true _ ▸ h
          | succ j =>
              simpa [applySeq] using hstop j (Nat.lt_of_succ_lt_succ hi)
        · intro hlt
          simpa [applySeq] using hlast (Nat.lt_of_succ_lt_succ hlt)

/-- C4: a part that raises nothing leaves `outcome.success` unchanged, and a
part raising anything other than `KeyboardInterrupt` and `_ShouldStop` has the
exception captured in exactly one of the outcome's collections (`okSkipped`,
`badSkipped`, `excluded`, `timedOut`, `errors`, or `expectedFailure`). -/
theorem osg_testPartExecutor_captures (o : Outcome) (test : TestId) :
    ((testPartExecutor o test none).1.success = o.success)
    ∧ (∀ e : Exc, e ≠ .keyboardInterrupt → e ≠ .shouldStop →
        capturedExactlyOne o (testPartExecutor o test (some e)).1 test e) := by
  constructor
  · unfold testPartExecutor
    by_cases h : o.result_supports_subtests = true <;> simp [h]
  · intro e h1 h2
    cases e with
    | okSkip m => exact Or.inl (by simp [testPartExecutor, excStr])
    | excluded m =>
        exact Or.inr (Or.inr (Or.inl (by simp [testPartExecutor, excStr])))
    | badSkip m => exact Or.inr (Or.inl (by simp [testPartExecutor, excStr]))
    | timeout m =>
        exact Or.inr (Or.inr (Or.inr (Or.inl (by simp [testPartExecutor, excStr]))))
    | skipTest m => exact Or.inl (by simp [testPartExecutor, excStr])
    | shouldStop => exact absurd rfl h2
    | keyboardInterrupt => exact absurd rfl h1
    | failure m =>
        by_cases h : o.expecting_failure = true
        · exact Or.inr (Or.inr (Or.inr (Or.inr (Or.inr
            (by simp [testPartExecutor, h])))))
        · exact Or.inr (Or.inr (Or.inr (Or.inr (Or.inl
            (by simp [testPartExecutor, h])))))
    | error m =>
        by_cases h : o.expecting_failure = true
        · exact Or.inr (Or.inr (Or.inr (Or.inr (Or.inr
            (by simp [testPartExecutor, h])))))
        · exact Or.inr (Or.inr (Or.inr (Or.inr (Or.inl
            (by simp [testPartExecutor, h])))))

/-- Witness for `osg_testPartExecutor_captures`: a fresh outcome and a
`BadSkipException` with message "m". -/
theorem osg_testPartExecutor_captures_witness :
    ((testPartExecutor (initOutcome true) 0 none).1.success
        = (initOutcome true).success)
    ∧ capturedExactlyOne (initOutcome true)
        (testPartExecutor (initOutcome true) 0 (some (.badSkip "m"))).1
        0 (.badSkip "m") :=
  ⟨(osg_testPartExecutor_captures (initOutcome true) 0).1,
   (osg_testPartExecutor_captures (initOutcome true) 0).2 (.badSkip "m")
     (by decide) (by decide)⟩

/-- C10: `testPartExecutor` re-raises a `KeyboardInterrupt` unchanged, leaving
the outcome exactly as it was, and `OSGTestCase.run` propagates it from any
part — setUp, the test body, or tearDown — with no result method invoked
beyond `startTest`/`stopTest`, so the interrupt is never recorded in any
outcome collection or result category. -/
theorem osg_keyboardInterrupt_reraised :
    (∀ (o : Outcome) (test : TestId),
        testPartExecutor o test (some .keyboardInterrupt)
          = (o, some .keyboardInterrupt))
    ∧ (∀ (isOSG : Bool) (test : TestId) (r0 : OSGTestResult) (b t : Option Exc),
        OSGTestCase.run isOSG test
            ⟨some .keyboardInterrupt, b, t, false⟩ r0 =
          { executed := [.setUpPart]
          , calls := [.startTest test, .stopTest test]
          , result := r0.startTest
          , raised := some (.raisedExc .keyboardInterrupt) })
    ∧ (∀ (isOSG : Bool) (test : TestId) (r0 : OSGTestResult) (t : Option Exc),
        OSGTestCase.run isOSG test ⟨none, some .keyboardInterrupt, t, false⟩ r0 =
          { executed := [.setUpPart, .bodyPart]
          , calls := [.startTest test, .stopTest test]
          , result := r0.startTest
          , raised := some (.raisedExc .keyboardInterrupt) })
    ∧ (∀ (isOSG : Bool) (test : TestId) (r0 : OSGTestResult) (b : Option Exc),
        (OSGTestCase.run isOSG test ⟨none, b, some .keyboardInterrupt, false⟩
            r0).calls = [.startTest test, .stopTest test]
        ∧ (OSGTestCase.run isOSG test ⟨none, b, some .keyboardInterrupt, false⟩
            r0).result = r0.startTest
        ∧ (OSGTestCase.run isOSG test ⟨none, b, some .keyboardInterrupt, false⟩
            r0).raised = some (.raisedExc .keyboardInterrupt)) := by
  refine ⟨fun o test => rfl, fun isOSG test r0 b t => rfl,
    fun isOSG test r0 t => rfl, fun isOSG test r0 b => ?_⟩
  rcases b with _ | e
  · exact ⟨rfl, rfl, rfl⟩
  · cases e <;> exact ⟨rfl, rfl, rfl⟩

/-- C7: against a result object that is not an `OSGTestResult`, a test body
raising `OkSkipException`, `BadSkipException` or `TimeoutException` leaves no
trace on the result beyond `startTest`/`stopTest`: nothing is recorded as a
success, failure, error or skip, and only `testsRun` is incremented. -/
theorem osg_run_plain_result_taxonomy_silent (m : String) (test : TestId)
    (r0 : OSGTestResult) :
    (OSGTestCase.run false test ⟨none, some (.okSkip m), none, false⟩ r0 =
      { executed := [.setUpPart, .bodyPart, .tearDownPart]
      , calls := [.startTest test, .stopTest test]
      , result := r0.startTest, raised := none })
    ∧ (OSGTestCase.run false test ⟨none, some (.badSkip m), none, false⟩ r0 =
      { executed := [.setUpPart, .bodyPart, .tearDownPart]
      , calls := [.startTest test, .stopTest test]
      , result := r0.startTest, raised := none })
    ∧ (OSGTestCase.run false test ⟨none, some (.timeout m), none, false⟩ r0 =
      { executed := [.setUpPart, .bodyPart, .tearDownPart]
      , calls := [.startTest test, .stopTest test]
      , result := r0.startTest, raised := none }) :=
  ⟨rfl, rfl, rfl⟩

/-- Helper: formatting a string `err` argument always raises. -/
theorem osg_exc_info_to_string_strArg (s : String) (test : TestId) :
    osg_exc_info_to_string (.strArg s) test
      = .error (if s.length = 3 then PyExc.attributeError else PyExc.valueError) := by
  simp only [osg_exc_info_to_string]
  split <;> rfl

/-- C1 at its failing inputs: a test body raising a taxonomy exception (or
`SkipTest`) against an `OSGTestResult` is not recorded in any category list;
instead `addOkSkip`/`addBadSkip`/`addExclude`/`addTimeout` raise `ValueError`
while unpacking the string reason that `run` hands them, the category list
stays empty, and `run` propagates the `ValueError`. -/
theorem osg_run_taxonomy_recording_crashes :
    ((OSGTestCase.run true 0 ⟨none, some (.okSkip "skipped"), none, false⟩
        OSGTestResult.empty).raised = some .valueError
      ∧ (OSGTestCase.run true 0 ⟨none, some (.okSkip "skipped"), none, false⟩
          OSGTestResult.empty).result.okSkips = []
      ∧ (OSGTestCase.run true 0 ⟨none, some (.okSkip "skipped"), none, false⟩
          OSGTestResult.empty).calls
        = [.startTest 0, .addOkSkip 0 (.strArg "skipped"), .stopTest 0])
    ∧ ((OSGTestCase.run true 0 ⟨none, some (.badSkip "badskip"), none, false⟩
        OSGTestResult.empty).raised = some .valueError
      ∧ (OSGTestCase.run true 0 ⟨none, some (.badSkip "badskip"), none, false⟩
          OSGTestResult.empty).result.badSkips = [])
    ∧ ((OSGTestCase.run true 0 ⟨none, some (.excluded "not run"), none, false⟩
        OSGTestResult.empty).raised = some .valueError
      ∧ (OSGTestCase.run true 0 ⟨none, some (.excluded "not run"), none, false⟩
          OSGTestResult.empty).result.excludes = [])
    ∧ ((OSGTestCase.run true 0 ⟨none, some (.timeout "timedout"), none, false⟩
        OSGTestResult.empty).raised = some .valueError
      ∧ (OSGTestCase.run true 0 ⟨none, some (.timeout "timedout"), none, false⟩
          OSGTestResult.empty).result.timeouts = [])
    ∧ ((OSGTestCase.run true 0 ⟨none, some (.skipTest "skip test"), none, false⟩
        OSGTestResult.empty).raised = some .valueError
      ∧ (OSGTestCase.run true 0 ⟨none, some (.skipTest "skip test"), none, false⟩
          OSGTestResult.empty).result.okSkips = []) := by
  decide

/-- C2: a test that raises one of the four taxonomy exceptions in setUp or in
the test body, run against an `OSGTestResult`, is never counted as a pass
(`addSuccess` is not invoked) nor recorded among failures or errors.  (For
`OkSkipException`, `BadSkipException` and `TimeoutException` this is because
`outcome.success` is cleared; for `ExcludedException` — whose handler leaves
`outcome.success` set — it is because the crashing category-recording loop
runs before the `addSuccess` call is reached.) -/
theorem osg_run_taxonomy_no_pass_fail_error (m : String) (test : TestId)
    (r0 : OSGTestResult) (e : Exc)
    (he : e = .okSkip m ∨ e = .badSkip m ∨ e = .excluded m ∨ e = .timeout m) :
    ((∀ c ∈ (OSGTestCase.run true test ⟨some e, none, none, false⟩ r0).calls,
        isPassFailErrorCall c = false)
      ∧ (OSGTestCase.run true test ⟨some e, none, none, false⟩ r0).result.failures
          = r0.failures
      ∧ (OSGTestCase.run true test ⟨some e, none, none, false⟩ r0).result.errors
          = r0.errors)
    ∧ ((∀ c ∈ (OSGTestCase.run true test ⟨none, some e, none, false⟩ r0).calls,
        isPassFailErrorCall c = false)
      ∧ (OSGTestCase.run true test ⟨none, some e, none, false⟩ r0).result.failures
          = r0.failures
      ∧ (OSGTestCase.run true test ⟨none, some e, none, false⟩ r0).result.errors
          = r0.errors) := by
  rcases he with rfl | rfl | rfl | rfl <;>
    refine ⟨⟨?_, ?_, ?_⟩, ⟨?_, ?_, ?_⟩⟩ <;>
    simp [OSGTestCase.run, testPartExecutor, runReportCalls, feedErrorCalls,
      doCalls, doCall, OSGTestResult.addOkSkip, OSGTestResult.addBadSkip,
      OSGTestResult.addExclude, OSGTestResult.addTimeout,
      osg_exc_info_to_string_strArg, isPassFailErrorCall, initOutcome,
      OSGTestResult.startTest, OSGTestResult.stopTest]

/-- Witness for `osg_run_taxonomy_no_pass_fail_error`: an `OkSkipException`
with message "x" against a fresh result. -/
theorem osg_run_taxonomy_no_pass_fail_error_witness :
    ((∀ c ∈ (OSGTestCase.run true 0 ⟨some (.okSkip "x"), none, none, false⟩
        OSGTestResult.empty).calls, isPassFailErrorCall c = false)
      ∧ (OSGTestCase.run true 0 ⟨some (.okSkip "x"), none, none, false⟩
          OSGTestResult.empty).result.failures = OSGTestResult.empty.failures
      ∧ (OSGTestCase.run true 0 ⟨some (.okSkip "x"), none, none, false⟩
          OSGTestResult.empty).result.errors = OSGTestResult.empty.errors)
    ∧ ((∀ c ∈ (OSGTestCase.run true 0 ⟨none, some (.okSkip "x"), none, false⟩
        OSGTestResult.empty).calls, isPassFailErrorCall c = false)
      ∧ (OSGTestCase.run true 0 ⟨none, some (.okSkip "x"), none, false⟩
          OSGTestResult.empty).result.failures = OSGTestResult.empty.failures
      ∧ (OSGTestCase.run true 0 ⟨none, some (.okSkip "x"), none, false⟩
          OSGTestResult.empty).result.errors = OSGTestResult.empty.errors) :=
  osg_run_taxonomy_no_pass_fail_error "x" 0 OSGTestResult.empty (.okSkip "x")
    (Or.inl rfl)

/-- C3 counterexample: with a setUp that raises `ExcludedException`, setUp did
not complete without raising, yet `OSGTestCase.run` still executes the test
body (and tearDown), because the `ExcludedException` handler in
`testPartExecutor` does not clear `outcome.success`. -/
theorem osg_run_part_order_counterexample :
    (some (Exc.excluded "skipped for this release") ≠ (none : Option Exc))
    ∧ (OSGTestCase.run true 0
        ⟨some (.excluded "skipped for this release"), none, none, false⟩
        OSGTestResult.empty).executed
      = [.setUpPart, .bodyPart, .tearDownPart] := by
  exact ⟨by decide, by decide⟩

/-- C3 amended: `OSGTestCase.run` enters the parts in the order setUp, test
body, tearDown; the body and tearDown are entered if and only if setUp raised
nothing or raised only `ExcludedException` or the internal `_ShouldStop`
(the two handlers that leave `outcome.success` set); and tearDown is entered
even when the body raises, except that a `KeyboardInterrupt` from the body
aborts the run before tearDown. -/
theorem osg_run_part_order (isOSG : Bool) (test : TestId) (sc : Script)
    (r0 : OSGTestResult) :
    (OSGTestCase.run isOSG test sc r0).executed =
      if setUpLetsBodyRun sc.setUpExc then
        if sc.bodyExc = some .keyboardInterrupt then [.setUpPart, .bodyPart]
        else [.setUpPart, .bodyPart, .tearDownPart]
      else [.setUpPart] := by
  obtain ⟨su, b, t, ef⟩ := sc
  rcases su with _ | su <;> (try cases su) <;>
    first
    | rfl
    | (rcases b with _ | b <;> (try cases b) <;> (try cases ef) <;>
        first
        | rfl
        | (rcases t with _ | t <;> (try cases t) <;> rfl))
